import Mathlib

set_option linter.unusedVariables false

/-!
Verification development for the TRIQS tutorial notebooks repository.

The repository consists of Jupyter notebooks (TPSC, TPSC and the
Mermin-Wagner theorem, Valence-Bond DMFT, TRIQS Green function demo).
This file shallowly embeds the notebooks' own code.  Floating-point
scalars of the Python/C++ source are modelled as rationals, complex
Green-function data as pairs of rationals; every external-library
numerical kernel (fsolve, brentq, make_gf_from_fourier, the CT-HYB
solver) is an opaque function parameter, while every formula written
in a notebook cell is translated literally.
-/

/-- Complex numbers with rational components.  Models the complex
double data stored in a scalar-valued TRIQS Green function. -/
structure CQ where
  re : ℚ
  im : ℚ
deriving DecidableEq, Repr

namespace CQ

instance : Zero CQ := ⟨⟨0, 0⟩⟩
instance : One CQ := ⟨⟨1, 0⟩⟩
instance : Add CQ := ⟨fun x y => ⟨x.re + y.re, x.im + y.im⟩⟩
instance : Sub CQ := ⟨fun x y => ⟨x.re - y.re, x.im - y.im⟩⟩
instance : Neg CQ := ⟨fun x => ⟨-x.re, -x.im⟩⟩
instance : Mul CQ := ⟨fun x y => ⟨x.re * y.re - x.im * y.im, x.re * y.im + x.im * y.re⟩⟩

/-- Complex inverse, total with junk value 0 at 0 (mirrors that the
source never inverts an exactly-zero denominator on the happy path). -/
instance : Inv CQ := ⟨fun x => ⟨x.re / (x.re ^ 2 + x.im ^ 2), -x.im / (x.re ^ 2 + x.im ^ 2)⟩⟩

/-- Scalar multiplication by a rational, modelling float * Gf data. -/
instance : SMul ℚ CQ := ⟨fun q x => ⟨q * x.re, q * x.im⟩⟩

/-- Division of complex data by a rational scalar (Gf data / float). -/
def divQ (x : CQ) (q : ℚ) : CQ := ⟨x.re / q, x.im / q⟩

end CQ

/-- A scalar-valued Green function / susceptibility on the product mesh
MeshBrillouinZone x MeshImFreq, as the notebooks use it: a finite table
of complex data together with the inverse temperature of the frequency
mesh, plus the mesh indices of the antiferromagnetic point (pi, pi, 0)
and of the zero Matsubara frequency (the two points the notebooks
evaluate at). -/
structure Chi (nk nw : ℕ) where
  data : Fin nk → Fin nw → CQ
  beta : ℚ
  kAF : Fin nk
  w0 : Fin nw

namespace Chi

/-- Sum of all data entries: chi.data.sum() in the source. -/
def dataSum {nk nw : ℕ} (chi : Chi nk nw) : CQ :=
  ((List.finRange nk).map fun k =>
    ((List.finRange nw).map fun w => chi.data k w).foldr (· + ·) 0).foldr (· + ·) 0

/-- Value of the Green function at the antiferromagnetic point and zero
frequency: chi0([pi, pi, 0], 0) in the source. -/
def afValue {nk nw : ℕ} (chi : Chi nk nw) : CQ := chi.data chi.kAF chi.w0

end Chi

/-! Notebook 1 (TPSC): functions defined in the cell at
src/unnamed/part_000, lines 89-121. -/

namespace TPSC

/-- Compute chi_rpa from chi: chi * inverse(1 - float(U) * chi).
Scalar-valued Gf arithmetic is pointwise on the data. -/
def chi_rpa {nk nw : ℕ} (chi0_kw : Chi nk nw) (U : ℚ) : Chi nk nw :=
  { chi0_kw with data := fun k w => chi0_kw.data k w * ((1 : CQ) - U • chi0_kw.data k w)⁻¹ }

/-- Given chi_kw, computes sum_k sum_nu chi(k, nu):
chi.data.sum() / len(kmesh) / wmesh.beta, real part
(the source asserts the imaginary part is numerically zero). -/
def trace_chi_kw {nk nw : ℕ} (chi : Chi nk nw) : ℚ :=
  (((chi.dataSum).divQ nk).divQ chi.beta).re

/-- Sets the self-consistency for U_sp as the problem of finding roots:
diff = 2 * tr_chi_sp + 0.5 * Usp / U * n ** 2 - n. -/
def Usp_root_problem {nk nw : ℕ} (Usp : ℚ) (chi0 : Chi nk nw) (n U : ℚ) : ℚ :=
  2 * trace_chi_kw (chi_rpa chi0 Usp) + 0.5 * Usp / U * n ^ 2 - n

/-- Sets the self-consistency for U_ch as the problem of finding roots:
diff = 2 * tr_chi_ch - 2 * docc - n + n ** 2, with the vertex entering
as chi_rpa(chi0, U = -Uch). -/
def Uch_root_problem {nk nw : ℕ} (Uch : ℚ) (chi0 : Chi nk nw) (n U docc : ℚ) : ℚ :=
  2 * trace_chi_kw (chi_rpa chi0 (-Uch)) - 2 * docc - n + n ^ 2

/-- Solves the root problem for U_sp and U_ch and outputs double
occupancy as well.  The external scipy root-finder fsolve is an opaque
function parameter taking the residual and the initial guess. -/
def solve_Usp_and_Uch {nk nw : ℕ} (fsolve : (ℚ → ℚ) → ℚ → ℚ)
    (chi0 : Chi nk nw) (U n : ℚ) (Usp0 : ℚ := 0.1) (Uch0 : ℚ := 0.1) : ℚ × ℚ × ℚ :=
  let Usp := fsolve (fun x => Usp_root_problem x chi0 n U) Usp0
  let docc := 0.25 * Usp / U * n ^ 2
  let Uch := fsolve (fun x => Uch_root_problem x chi0 n U docc) Uch0
  (Usp, Uch, docc)

end TPSC

/-! Notebook 2 (TPSC and the Mermin-Wagner theorem): functions defined
in the cells at src/unnamed/part_000, lines 455-481. -/

namespace MW

/-- Compute chi_rpa from chi: chi0 * inverse(1 - 0.5 * U * chi0).
Note the explicit factor 0.5 absent from the first notebook. -/
def chi_rpa {nk nw : ℕ} (chi0 : Chi nk nw) (U : ℚ) : Chi nk nw :=
  { chi0 with data := fun k w => chi0.data k w * ((1 : CQ) - (0.5 * U) • chi0.data k w)⁻¹ }

/-- Given chi_kw, computes sum_k sum_nu chi(k, nu). -/
def trace_chi {nk nw : ℕ} (chi : Chi nk nw) : ℚ :=
  (((chi.dataSum).divQ nk).divQ chi.beta).re

/-- Sets the self-consistency for U_sp as the problem of finding roots:
diff = tr_chi_sp + 0.5 * Usp / U * n ** 2 - n (single trace). -/
def Usp_root {nk nw : ℕ} (Usp : ℚ) (chi0 : Chi nk nw) (n U : ℚ) : ℚ :=
  trace_chi (chi_rpa chi0 Usp) + 0.5 * Usp / U * n ^ 2 - n

/-- Charge-channel residual: diff = tr_chi - 2 * docc - n + n ** 2. -/
def Uch_root {nk nw : ℕ} (Uch : ℚ) (chi0 : Chi nk nw) (n U docc : ℚ) : ℚ :=
  trace_chi (chi_rpa chi0 (-Uch)) - 2 * docc - n + n ^ 2

/-- The temperature-sweep TPSC solver.  The external scipy bracketed
root-finder brentq is an opaque parameter taking the residual and the
two bracket ends.  Uc = 2 / chi0([pi, pi, 0], 0).real, U_sp is searched
in [0, Uc - 1e-6], U_ch in [0, 100]. -/
def solve_tpsc {nk nw : ℕ} (brentq : (ℚ → ℚ) → ℚ → ℚ → ℚ)
    (chi0 : Chi nk nw) (U n : ℚ) : ℚ × ℚ × ℚ × ℚ :=
  let Uc := 2 / (chi0.afValue).re
  let Usp := brentq (fun x => Usp_root x chi0 n U) 0 (Uc - 1/1000000)
  let docc := 0.25 * Usp / U * n ^ 2
  let Uch := brentq (fun y => Uch_root y chi0 n U docc) 0 100
  (Usp, Uch, docc, Uc)

end MW

/-! The accelerated Lindhard bubble of the Mermin-Wagner notebook
(src/unnamed/part_000, lines 383-407).  The two Fourier transforms
(make_gf_from_fourier) are opaque external-library calls, modelled as
function parameters; the particle-hole product loop between them is
repository code and is translated literally. -/

/-- A scalar Green function on the (k, i omega) product mesh, as a
function of momentum index and frequency. -/
def GKW (κ : Type) : Type := κ → ℚ → CQ

/-- A scalar Green function on the (r, tau) product mesh; the cyclic
lattice supports negation of r. -/
def GRT (ρ : Type) : Type := ρ → ℚ → CQ

/-- The fill loop of bubble: chi0[r, t] = 2 * grt(-r, beta - t) * grt(r, t)
for every r in the lattice mesh and t in the bosonic time mesh. -/
def particleHoleFill {ρ : Type} [Neg ρ] (beta : ℚ) (grt : GRT ρ) : GRT ρ :=
  fun r t => (2 : ℚ) • (grt (-r) (beta - t) * grt r t)

/-- g_k_w_type bubble(g_k_w_type g0): Fourier transform g0 to (r, tau),
fill chi0(r, t) = 2 g(-r, beta - t) g(r, t), Fourier transform back. -/
def bubble {κ ρ : Type} [Neg ρ] (fourier_rt : GKW κ → GRT ρ)
    (fourier_kw : GRT ρ → GKW κ) (beta : ℚ) (g0 : GKW κ) : GKW κ :=
  fourier_kw (particleHoleFill beta (fourier_rt g0))

/-! A step-level account of what each notebook cell computes and where
the computation is implemented.  Each entry is read off one construct
of one source cell; origin = repo when the loop or formula is written
in this repository (including the inline cpp2py cells, whose text lives
in the notebooks), origin = library when the computation happens inside
an external-library entry point the cell merely calls. -/

/-- Who implements a computation step. -/
inductive Origin
  | repo
  | library
deriving DecidableEq, Repr

/-- What a computation step is. -/
inductive OpKind
  | paramSet
  | libCall
  | postProcess
  | plot
  | quadratureSum
  | convolutionFill
  | selfConsistencyUpdate
  | fourierTransform
  | monteCarlo
  | rootFinding
deriving DecidableEq, Repr

/-- One computation step of a notebook. -/
structure NbStep where
  name : String
  kind : OpKind
  origin : Origin
deriving DecidableEq, Repr

/-- Steps of the TPSC notebook (src/unnamed/part_000, first document). -/
def tpscNotebookSteps : List NbStep := [
  ⟨"import pytriqs scipy numpy matplotlib", OpKind.libCall, Origin.repo⟩,
  ⟨"HDFArchive read chi0_kw from tpsc.h5", OpKind.libCall, Origin.repo⟩,
  ⟨"chi_rpa Gf arithmetic chi times inverse of 1 minus U chi", OpKind.postProcess, Origin.repo⟩,
  ⟨"trace_chi_kw data sum over mesh divided by len kmesh and beta", OpKind.postProcess, Origin.repo⟩,
  ⟨"Usp_root_problem residual supplied to fsolve", OpKind.postProcess, Origin.repo⟩,
  ⟨"Uch_root_problem residual supplied to fsolve", OpKind.postProcess, Origin.repo⟩,
  ⟨"fsolve root search for Usp and Uch", OpKind.rootFinding, Origin.library⟩,
  ⟨"docc formula a quarter Usp over U times n squared", OpKind.postProcess, Origin.repo⟩,
  ⟨"U grid setup and result table", OpKind.paramSet, Origin.repo⟩,
  ⟨"overlay plot against paper figure 2", OpKind.plot, Origin.repo⟩,
  ⟨"RPA Pauli principle sum table", OpKind.postProcess, Origin.repo⟩,
  ⟨"plot RPA violation of the Pauli principle", OpKind.plot, Origin.repo⟩ ]

/-- Steps of the Mermin-Wagner notebook (src/unnamed/part_000, second
document), including the inline cpp2py bubble cell. -/
def merminWagnerSteps : List NbStep := [
  ⟨"import pytriqs scipy and reload cpp2py magic", OpKind.libCall, Origin.repo⟩,
  ⟨"fourier transform of g0 to r tau inside make_gf_from_fourier", OpKind.fourierTransform, Origin.library⟩,
  ⟨"bubble fill chi0 r t as 2 g minus r beta minus t times g r t", OpKind.convolutionFill, Origin.repo⟩,
  ⟨"fourier transform of chi0 back to k w inside make_gf_from_fourier", OpKind.fourierTransform, Origin.library⟩,
  ⟨"eps dispersion minus 2 t cos kx plus cos ky", OpKind.postProcess, Origin.repo⟩,
  ⟨"get_chi0 fills g0 data as 1 over w minus eps", OpKind.postProcess, Origin.repo⟩,
  ⟨"chi_rpa Gf arithmetic with explicit half factor", OpKind.postProcess, Origin.repo⟩,
  ⟨"trace_chi data sum over mesh", OpKind.postProcess, Origin.repo⟩,
  ⟨"Usp_root and Uch_root residuals supplied to brentq", OpKind.postProcess, Origin.repo⟩,
  ⟨"brentq bracketed root search", OpKind.rootFinding, Origin.library⟩,
  ⟨"parameters n U t n_k n_w lattice and meshes", OpKind.paramSet, Origin.repo⟩,
  ⟨"RPA temperature sweep and spin structure factor table", OpKind.postProcess, Origin.repo⟩ ]

/-- Steps of the Valence-Bond DMFT solutions notebook
(src/unnamed/part_001). -/
def vbDmftSteps : List NbStep := [
  ⟨"import pytriqs triqs_cthyb numpy matplotlib", OpKind.libCall, Origin.repo⟩,
  ⟨"parameters t tp U beta mu", OpKind.paramSet, Origin.repo⟩,
  ⟨"dispersion epsk on the k grid", OpKind.postProcess, Origin.repo⟩,
  ⟨"pcolormesh plot of the dispersion", OpKind.plot, Origin.repo⟩,
  ⟨"numpy histogram partial densities of states", OpKind.libCall, Origin.repo⟩,
  ⟨"fill_between plot of the partial dos", OpKind.plot, Origin.repo⟩,
  ⟨"local Hamiltonian from even odd operators", OpKind.paramSet, Origin.repo⟩,
  ⟨"construct the cthyb Solver", OpKind.libCall, Origin.repo⟩,
  ⟨"DCA Hilbert transform quadrature over dos bins", OpKind.quadratureSum, Origin.repo⟩,
  ⟨"Weiss field update inverse of inverse G plus Sigma", OpKind.selfConsistencyUpdate, Origin.repo⟩,
  ⟨"cthyb Monte Carlo sampling inside Solver.solve", OpKind.monteCarlo, Origin.library⟩,
  ⟨"HDFArchive write of per iteration results", OpKind.libCall, Origin.repo⟩ ]

/-- Steps of the TRIQS Green function demo notebook
(src/Advanced/cpp2py/2-TriqsGf.ipynb). -/
def triqsGfDemoSteps : List NbStep := [
  ⟨"cpp2py compile of the demo cell", OpKind.libCall, Origin.repo⟩,
  ⟨"demo builds g_iw as 1 over iw plus 2 and writes gf.h5", OpKind.libCall, Origin.repo⟩,
  ⟨"oplot of the demo output", OpKind.plot, Origin.repo⟩ ]

/-- All steps of all four notebooks. -/
def allNotebookSteps : List NbStep :=
  tpscNotebookSteps ++ merminWagnerSteps ++ vbDmftSteps ++ triqsGfDemoSteps

/-- The kinds of step the spec allows the notebooks themselves:
setting parameters, calling library entry points, post-processing and
plotting. -/
def isDelegationKind : OpKind → Bool
  | OpKind.paramSet => true
  | OpKind.libCall => true
  | OpKind.postProcess => true
  | OpKind.plot => true
  | _ => false

/-- The claim that every repo-implemented step is mere delegation glue. -/
def notebooksOnlyDelegate : Bool :=
  allNotebookSteps.all fun s => s.origin == Origin.library || isDelegationKind s.kind

/-! External-library call inventory per notebook, for the two stacks the
spec distinguishes: the many-body-physics library and the general
scientific stack. -/

/-- Which external stack a call goes into. -/
inductive StackSide
  | manyBody
  | generalSci
deriving DecidableEq, Repr

/-- One external-library call site of a notebook. -/
structure LibCallRef where
  callee : String
  side : StackSide
deriving DecidableEq, Repr

/-- External calls of the TPSC notebook. -/
def tpscNotebookCalls : List LibCallRef := [
  ⟨"pytriqs.archive.HDFArchive", StackSide.manyBody⟩,
  ⟨"pytriqs.gf copy and inverse", StackSide.manyBody⟩,
  ⟨"scipy.optimize.fsolve", StackSide.generalSci⟩,
  ⟨"numpy array arithmetic", StackSide.generalSci⟩,
  ⟨"matplotlib plot", StackSide.generalSci⟩ ]

/-- External calls of the Mermin-Wagner notebook. -/
def merminWagnerCalls : List LibCallRef := [
  ⟨"pytriqs meshes and make_gf_from_fourier", StackSide.manyBody⟩,
  ⟨"pytriqs.archive.HDFArchive", StackSide.manyBody⟩,
  ⟨"scipy.optimize.brentq and fsolve", StackSide.generalSci⟩,
  ⟨"numpy array arithmetic", StackSide.generalSci⟩,
  ⟨"matplotlib plot", StackSide.generalSci⟩ ]

/-- External calls of the Valence-Bond DMFT notebook. -/
def vbDmftCalls : List LibCallRef := [
  ⟨"triqs_cthyb.Solver", StackSide.manyBody⟩,
  ⟨"pytriqs.operators c and dagger", StackSide.manyBody⟩,
  ⟨"pytriqs.archive.HDFArchive", StackSide.manyBody⟩,
  ⟨"numpy histogram and meshgrid", StackSide.generalSci⟩,
  ⟨"matplotlib pcolormesh and fill_between", StackSide.generalSci⟩ ]

/-- External calls of the TRIQS Green function demo notebook. -/
def triqsGfDemoCalls : List LibCallRef := [
  ⟨"triqs gf container and h5 write inside demo", StackSide.manyBody⟩,
  ⟨"pytriqs.plot.mpl_interface.oplot", StackSide.manyBody⟩,
  ⟨"matplotlib xlim", StackSide.generalSci⟩ ]

/-- The four notebooks of the repository with their call inventories. -/
def notebookCallTables : List (String × List LibCallRef) := [
  ("01-TPSC", tpscNotebookCalls),
  ("02-TPSC-MerminWagner", merminWagnerCalls),
  ("VB-DMFT solutions", vbDmftCalls),
  ("Advanced cpp2py 2-TriqsGf", triqsGfDemoCalls) ]

/-! HDF5 archive keys written and read by the notebooks. -/

/-- Keys the Valence-Bond DMFT loop writes into results.h5 at
iteration it: G_iw-%i, Sigma_iw-%i, G0_iw-%i
(src/unnamed/part_001, lines 202-206). -/
def resultsKeysAt (it : ℕ) : List String :=
  ["G_iw-" ++ toString it, "Sigma_iw-" ++ toString it, "G0_iw-" ++ toString it]

/-- n_loops = 10 in the DMFT loop. -/
def n_loops : ℕ := 10

/-- All keys written into results.h5 over the full DMFT loop. -/
def resultsArchiveKeys : List String :=
  ((List.range n_loops).map resultsKeysAt).flatten

/-- Key read from tpsc.h5 by the TPSC notebook. -/
def tpscArchiveReadKey : String := "chi0_kw"

/-- Key written into gf.h5 by the demo cell. -/
def gfDemoWriteKey : String := "g_iw"

/-- Keys a process writes during one DMFT iteration: the archive write
is guarded by if mpi.is_master_node()
(src/unnamed/part_001, lines 202-206). -/
def iterationWriteKeys (isMasterNode : Bool) (it : ℕ) : List String :=
  if isMasterNode then resultsKeysAt it else []

/-! The two-site local Hamiltonian of the Valence-Bond DMFT notebook
(src/unnamed/part_001, lines 132-141).  The notebook builds site
operators from the library second-quantization operators
c(even-s, 0), c(odd-s, 0).  The library operator algebra is modelled
here by its (faithful) Fock representation on the four modes even-up,
odd-up, even-down, odd-down: operators act on the 16-dimensional
occupation-number space, creation/annihilation follow the
Jordan-Wigner convention.  All operator entries lie in the real
subfield Q adjoin sqrt 2, so complex conjugation is the identity on
them. -/

/-- A number (a + b sqrt 2) / 2 ^ k of the ring Z adjoin sqrt 2
localized at 2 — every coefficient the two-site Hamiltonian
construction produces lies there.  Values are kept in the normal form
where k = 0 or not both a and b are even, so structural equality is
value equality. -/
structure Ksq where
  a : ℤ
  b : ℤ
  k : ℕ
deriving DecidableEq, Repr

namespace Ksq

/-- Normalize by cancelling common factors of 2 against the
denominator exponent. -/
def norm2 : ℤ → ℤ → ℕ → Ksq
  | a, b, 0 => ⟨a, b, 0⟩
  | a, b, k+1 => if a % 2 = 0 ∧ b % 2 = 0 then norm2 (a / 2) (b / 2) k else ⟨a, b, k+1⟩

instance : Zero Ksq := ⟨⟨0, 0, 0⟩⟩
instance : One Ksq := ⟨⟨1, 0, 0⟩⟩
instance : Neg Ksq := ⟨fun x => ⟨-x.a, -x.b, x.k⟩⟩
instance : Add Ksq :=
  ⟨fun x y => norm2 (x.a * 2 ^ y.k + y.a * 2 ^ x.k) (x.b * 2 ^ y.k + y.b * 2 ^ x.k) (x.k + y.k)⟩
instance : Sub Ksq := ⟨fun x y => x + (-y)⟩
instance : Mul Ksq :=
  ⟨fun x y => norm2 (x.a * y.a + 2 * (x.b * y.b)) (x.a * y.b + x.b * y.a) (x.k + y.k)⟩

/-- Complex conjugation, the identity on this real subring. -/
def conj (x : Ksq) : Ksq := x

/-- 1 / sqrt 2 = (sqrt 2) / 2, the normalization of the basis change. -/
def invSqrt2 : Ksq := ⟨0, 1, 1⟩

end Ksq

/-- An operator on the 16-dimensional Fock space of the four modes
(mode m occupies bit m of a basis index), stored as its matrix in
coordinate form: a list of entries (row, column, coefficient).  All
operations return the canonical form — entries sorted by (row, column),
duplicate positions combined, zero coefficients dropped — so structural
equality of the lists is equality of the matrices. -/
abbrev SOp : Type := List (ℕ × ℕ × Ksq)

namespace SOp

/-- Sort key of an entry: row-major position. -/
def key (t : ℕ × ℕ × Ksq) : ℕ := t.1 * 16 + t.2.1

/-- Insert an entry into a key-sorted list. -/
def insertT (t : ℕ × ℕ × Ksq) : SOp → SOp
  | [] => [t]
  | u :: rest => if key t ≤ key u then t :: u :: rest else u :: insertT t rest

/-- Sort entries by key. -/
def sortT (A : SOp) : SOp := A.foldr insertT []

/-- Combine duplicate positions and drop zero coefficients in a
key-sorted list. -/
def mergeT : SOp → SOp
  | [] => []
  | t :: rest =>
    match mergeT rest with
    | [] => if t.2.2 = 0 then [] else [t]
    | u :: rest2 =>
      if key t = key u then
        (if t.2.2 + u.2.2 = 0 then rest2 else (t.1, t.2.1, t.2.2 + u.2.2) :: rest2)
      else if t.2.2 = 0 then u :: rest2 else t :: u :: rest2

/-- Canonical form of a coordinate list. -/
def canon (A : SOp) : SOp := mergeT (sortT A)

/-- Operator sum. -/
def add (A B : SOp) : SOp := canon (A ++ B)

/-- Scalar multiple of an operator. -/
def smul (q : Ksq) (A : SOp) : SOp := canon (A.map fun t => (t.1, t.2.1, q * t.2.2))

/-- Operator difference. -/
def sub (A B : SOp) : SOp := add A (smul ⟨-1, 0, 0⟩ B)

/-- Operator (matrix) product. -/
def mul (A B : SOp) : SOp :=
  canon ((A.map fun t => B.filterMap fun u =>
    if t.2.1 = u.1 then some (t.1, u.2.1, t.2.2 * u.2.2) else none).flatten)

/-- Hermitian adjoint (the library dagger): conjugate transpose. -/
def dagger (A : SOp) : SOp := canon (A.map fun t => (t.2.1, t.1, Ksq.conj t.2.2))

/-- Anticommutator A B + B A. -/
def anticommutator (A B : SOp) : SOp := add (mul A B) (mul B A)

/-- Identity operator. -/
def idOp : SOp := (List.range 16).map fun i => (i, i, (1 : Ksq))

/-- Zero operator. -/
def zeroOp : SOp := []

end SOp

/-- Jordan-Wigner sign of mode m on state st: parity of the occupied
modes below m. -/
def jwSign (m : ℕ) (st : ℕ) : Ksq :=
  if ((List.range m).countP fun p => st.testBit p) % 2 == 1 then ⟨-1, 0, 0⟩ else ⟨1, 0, 0⟩

/-- Annihilation operator of mode m (m = 0 even-up, 1 odd-up,
2 even-down, 3 odd-down): it maps a basis state with bit m set to the
state with bit m cleared, with the Jordan-Wigner sign. -/
def cOp (m : ℕ) : SOp :=
  SOp.canon ((List.range 16).filterMap fun j =>
    if j.testBit m then some (j ^^^ 2 ^ m, j, jwSign m j) else none)

/-- Spin labels of the notebook. -/
inductive Spin
  | up
  | down
deriving DecidableEq, Repr, Fintype

/-- Site labels 1 and 2 of the two-site impurity. -/
inductive Site
  | one
  | two
deriving DecidableEq, Repr, Fintype

/-- Fock mode of the even orbital with spin s. -/
def evenMode : Spin → ℕ
  | Spin.up => 0
  | Spin.down => 2

/-- Fock mode of the odd orbital with spin s. -/
def oddMode : Spin → ℕ
  | Spin.up => 1
  | Spin.down => 3

/-- Site annihilation operators in terms of the even/odd basis:
cn[1-s] = (c(even-s) + c(odd-s)) / sqrt 2,
cn[2-s] = (c(even-s) - c(odd-s)) / sqrt 2. -/
def cn (s : Site) (sp : Spin) : SOp :=
  match s with
  | Site.one => SOp.smul Ksq.invSqrt2 (SOp.add (cOp (evenMode sp)) (cOp (oddMode sp)))
  | Site.two => SOp.smul Ksq.invSqrt2 (SOp.sub (cOp (evenMode sp)) (cOp (oddMode sp)))

/-- Site number operators nn[site-s] = dagger(cn[site-s]) * cn[site-s]. -/
def nn (s : Site) (sp : Spin) : SOp := SOp.mul (SOp.dagger (cn s sp)) (cn s sp)

/-- The bare interaction of the notebook: U = 10 * t = 5/2 with
t = 0.25. -/
def Uvb : Ksq := ⟨5, 0, 1⟩

/-- Local Hamiltonian
h_loc = U * (nn[1-up] * nn[1-down] + nn[2-up] * nn[2-down]). -/
def h_loc : SOp :=
  SOp.smul Uvb
    (SOp.add (SOp.mul (nn Site.one Spin.up) (nn Site.one Spin.down))
             (SOp.mul (nn Site.two Spin.up) (nn Site.two Spin.down)))

/-! Concrete instances used to witness the theorems with hypotheses. -/

/-- A one-point mesh susceptibility with constant data -1, beta = 1. -/
def chiNeg : Chi 1 1 := ⟨fun _ _ => ⟨-1, 0⟩, 1, 0, 0⟩

/-- A one-point mesh susceptibility with constant data 1, beta = 1. -/
def chiPos : Chi 1 1 := ⟨fun _ _ => ⟨1, 0⟩, 1, 0, 0⟩

/-- A stand-in for fsolve that returns the (near-)roots of the two
residuals of the TPSC notebook on chiNeg with n = 1, U = 1; it
distinguishes the two calls by the residual value at 0. -/
def fsolveW : (ℚ → ℚ) → ℚ → ℚ := fun f _ => if f 0 = -3 then 3 else 7/3

/-- A stand-in for brentq that returns the (near-)roots of the two
residuals of the Mermin-Wagner notebook on chiNeg with n = 1, U = 1;
it distinguishes the two calls by the upper bracket end. -/
def brentqW : (ℚ → ℚ) → ℚ → ℚ → ℚ := fun _ _ b => if b = 100 then 482/141 else 141/50

/-- A stand-in for brentq that returns the lower bracket end. -/
def brentqLow : (ℚ → ℚ) → ℚ → ℚ → ℚ := fun _ a _ => a

/-! Helper lemmas. -/

/-- Real part of an explicit complex datum. -/
@[simp] theorem CQ.mk_re (a b : ℚ) : (CQ.mk a b).re = a := rfl

/-- Imaginary part of an explicit complex datum. -/
@[simp] theorem CQ.mk_im (a b : ℚ) : (CQ.mk a b).im = b := rfl

/-- Real part of a sum. -/
@[simp] theorem CQ.add_re (x y : CQ) : (x + y).re = x.re + y.re := rfl

/-- Imaginary part of a sum. -/
@[simp] theorem CQ.add_im (x y : CQ) : (x + y).im = x.im + y.im := rfl

/-- Real part of a difference. -/
@[simp] theorem CQ.sub_re (x y : CQ) : (x - y).re = x.re - y.re := rfl

/-- Imaginary part of a difference. -/
@[simp] theorem CQ.sub_im (x y : CQ) : (x - y).im = x.im - y.im := rfl

/-- Real part of a negation. -/
@[simp] theorem CQ.neg_re (x : CQ) : (-x).re = -x.re := rfl

/-- Imaginary part of a negation. -/
@[simp] theorem CQ.neg_im (x : CQ) : (-x).im = -x.im := rfl

/-- Real part of a product. -/
@[simp] theorem CQ.mul_re (x y : CQ) : (x * y).re = x.re * y.re - x.im * y.im := rfl

/-- Imaginary part of a product. -/
@[simp] theorem CQ.mul_im (x y : CQ) : (x * y).im = x.re * y.im + x.im * y.re := rfl

/-- Real part of an inverse. -/
@[simp] theorem CQ.inv_re (x : CQ) : (x⁻¹).re = x.re / (x.re ^ 2 + x.im ^ 2) := rfl

/-- Imaginary part of an inverse. -/
@[simp] theorem CQ.inv_im (x : CQ) : (x⁻¹).im = -x.im / (x.re ^ 2 + x.im ^ 2) := rfl

/-- Real part of a scalar multiple. -/
@[simp] theorem CQ.smul_re (q : ℚ) (x : CQ) : (q • x).re = q * x.re := rfl

/-- Imaginary part of a scalar multiple. -/
@[simp] theorem CQ.smul_im (q : ℚ) (x : CQ) : (q • x).im = q * x.im := rfl

/-- Real part of one. -/
@[simp] theorem CQ.one_re : (1 : CQ).re = 1 := rfl

/-- Imaginary part of one. -/
@[simp] theorem CQ.one_im : (1 : CQ).im = 0 := rfl

/-- Real part of zero. -/
@[simp] theorem CQ.zero_re : (0 : CQ).re = 0 := rfl

/-- Imaginary part of zero. -/
@[simp] theorem CQ.zero_im : (0 : CQ).im = 0 := rfl

/-- Real part of division by a rational. -/
@[simp] theorem CQ.divQ_re (x : CQ) (q : ℚ) : (x.divQ q).re = x.re / q := rfl

/-- Imaginary part of division by a rational. -/
@[simp] theorem CQ.divQ_im (x : CQ) (q : ℚ) : (x.divQ q).im = x.im / q := rfl

/-- Equality of complex data componentwise. -/
theorem CQ.ext_iff (x y : CQ) : x = y ↔ x.re = y.re ∧ x.im = y.im := by
  constructor
  · intro h; exact ⟨by rw [h], by rw [h]⟩
  · intro h; cases x; cases y; simp only [CQ.mk.injEq]; exact ⟨h.1, h.2⟩

/-- Multiplication of complex data is commutative. -/
theorem CQ.mul_comm (x y : CQ) : x * y = y * x := by
  rw [CQ.ext_iff]
  constructor
  · show x.re * y.re - x.im * y.im = y.re * x.re - y.im * x.im
    ring
  · show x.re * y.im + x.im * y.re = y.re * x.im + y.im * x.re
    ring

/-- Multiplication of complex data is associative. -/
theorem CQ.mul_assoc (x y z : CQ) : x * y * z = x * (y * z) := by
  rw [CQ.ext_iff]
  constructor
  · show (x.re * y.re - x.im * y.im) * z.re - (x.re * y.im + x.im * y.re) * z.im
      = x.re * (y.re * z.re - y.im * z.im) - x.im * (y.re * z.im + y.im * z.re)
    ring
  · show (x.re * y.re - x.im * y.im) * z.im + (x.re * y.im + x.im * y.re) * z.re
      = x.re * (y.re * z.im + y.im * z.re) + x.im * (y.re * z.re - y.im * z.im)
    ring

/-- One is a right unit for complex data. -/
theorem CQ.mul_one (x : CQ) : x * 1 = x := by
  rw [CQ.ext_iff]
  constructor
  · show x.re * 1 - x.im * 0 = x.re
    ring
  · show x.re * 0 + x.im * 1 = x.im
    ring

/-- A nonzero complex datum times its inverse is one. -/
theorem CQ.mul_inv_cancel (x : CQ) (hx : x ≠ 0) : x * x⁻¹ = 1 := by
  have hd : x.re ^ 2 + x.im ^ 2 ≠ 0 := by
    intro h
    have ha : x.re = 0 := by nlinarith [sq_nonneg x.re, sq_nonneg x.im]
    have hb : x.im = 0 := by nlinarith [sq_nonneg x.re, sq_nonneg x.im]
    exact hx (by rw [CQ.ext_iff]; exact ⟨ha, hb⟩)
  rw [CQ.ext_iff]
  constructor
  · show x.re * (x.re / (x.re ^ 2 + x.im ^ 2)) - x.im * (-x.im / (x.re ^ 2 + x.im ^ 2)) = 1
    field_simp
    ring
  · show x.re * (-x.im / (x.re ^ 2 + x.im ^ 2)) + x.im * (x.re / (x.re ^ 2 + x.im ^ 2)) = 0
    field_simp
    ring

/-- The chi_rpa of the first TPSC notebook at vertex U coincides with
the Mermin-Wagner chi_rpa at vertex 2U. -/
theorem chi_rpa_double {nk nw : ℕ} (chi0 : Chi nk nw) (U : ℚ) :
    TPSC.chi_rpa chi0 U = MW.chi_rpa chi0 (2 * U) := by
  unfold TPSC.chi_rpa MW.chi_rpa
  simp only [show (0.5 * (2 * U) : ℚ) = U from by ring]

/-! Claim C4. -/

/-- C4 (corrected): the two TPSC implementations are not equivalent as
claimed; the precise relation is that the first notebook's chi_rpa at
vertex U equals the Mermin-Wagner chi_rpa at vertex 2U, so the first
notebook's residuals differ from the Mermin-Wagner ones exactly by the
mismatch of their trace terms (doubled trace at doubled vertex versus
single trace at the bare vertex); the ansatz terms agree. -/
theorem tpsc_vs_mw_residual_relation :
    (∀ (nk nw : ℕ) (chi0 : Chi nk nw) (U : ℚ),
      TPSC.chi_rpa chi0 U = MW.chi_rpa chi0 (2 * U))
    ∧ (∀ (nk nw : ℕ) (Usp : ℚ) (chi0 : Chi nk nw) (n U : ℚ),
      TPSC.Usp_root_problem Usp chi0 n U - MW.Usp_root Usp chi0 n U
        = 2 * MW.trace_chi (MW.chi_rpa chi0 (2 * Usp)) - MW.trace_chi (MW.chi_rpa chi0 Usp))
    ∧ (∀ (nk nw : ℕ) (Uch : ℚ) (chi0 : Chi nk nw) (n U docc : ℚ),
      TPSC.Uch_root_problem Uch chi0 n U docc - MW.Uch_root Uch chi0 n U docc
        = 2 * MW.trace_chi (MW.chi_rpa chi0 (-(2 * Uch))) - MW.trace_chi (MW.chi_rpa chi0 (-Uch))) := by
  refine ⟨fun nk nw chi0 U => chi_rpa_double chi0 U, ?_, ?_⟩
  · intro nk nw Usp chi0 n U
    unfold TPSC.Usp_root_problem MW.Usp_root TPSC.trace_chi_kw MW.trace_chi
    rw [chi_rpa_double]
    ring
  · intro nk nw Uch chi0 n U docc
    unfold TPSC.Uch_root_problem MW.Uch_root TPSC.trace_chi_kw MW.trace_chi
    rw [chi_rpa_double, show (2 * -Uch : ℚ) = -(2 * Uch) from by ring]
    ring

/-- C4 counterexample: at the concrete one-point susceptibility with
constant value 1 (beta = 1) the spin residuals of the two notebooks
disagree at Usp = 4, n = 1, U = 1, and the charge residuals disagree
at Uch = 1, docc = 0; the two solvers therefore do not determine the
same vertices from the same chi0. -/
theorem tpsc_vs_mw_residuals_differ :
    TPSC.Usp_root_problem 4 chiPos 1 1 ≠ MW.Usp_root 4 chiPos 1 1
    ∧ TPSC.Uch_root_problem 1 chiPos 1 1 0 ≠ MW.Uch_root 1 chiPos 1 1 0 := by
  constructor
  · norm_num [TPSC.Usp_root_problem, MW.Usp_root, TPSC.trace_chi_kw, MW.trace_chi,
      TPSC.chi_rpa, MW.chi_rpa, Chi.dataSum, chiPos, List.finRange_succ, List.finRange_zero]
  · norm_num [TPSC.Uch_root_problem, MW.Uch_root, TPSC.trace_chi_kw, MW.trace_chi,
      TPSC.chi_rpa, MW.chi_rpa, Chi.dataSum, chiPos, List.finRange_succ, List.finRange_zero]

/-! Claim C3. -/

/-- C3 (confirmed): provided the opaque external root-finders return
(approximate) roots of the residuals they are handed — the tolerance
xtol = 1e-2 of the source is used for both channels — the triples
returned by solve_Usp_and_Uch and by solve_tpsc consist of a Usp
zeroing the spin residual within 1e-2, a Uch zeroing the charge
residual within 1e-2, and docc = 0.25 * Usp * n^2 / U; the functions
themselves only wire the repository-defined residuals into the opaque
solvers. -/
theorem tpsc_solvers_return_residual_roots {nk nw : ℕ}
    (fsolve : (ℚ → ℚ) → ℚ → ℚ) (brentq : (ℚ → ℚ) → ℚ → ℚ → ℚ)
    (chi0 : Chi nk nw) (U n Usp0 Uch0 : ℚ) (hU : U ≠ 0)
    (Usp1 Uch1 docc1 : ℚ)
    (heq1 : TPSC.solve_Usp_and_Uch fsolve chi0 U n Usp0 Uch0 = (Usp1, Uch1, docc1))
    (hr1 : |TPSC.Usp_root_problem Usp1 chi0 n U| ≤ 1/100)
    (hr2 : |TPSC.Uch_root_problem Uch1 chi0 n U docc1| ≤ 1/100)
    (Usp2 Uch2 docc2 Uc2 : ℚ)
    (heq2 : MW.solve_tpsc brentq chi0 U n = (Usp2, Uch2, docc2, Uc2))
    (hr3 : |MW.Usp_root Usp2 chi0 n U| ≤ 1/100)
    (hr4 : |MW.Uch_root Uch2 chi0 n U docc2| ≤ 1/100) :
    |TPSC.Usp_root_problem Usp1 chi0 n U| ≤ 1/100
    ∧ |TPSC.Uch_root_problem Uch1 chi0 n U docc1| ≤ 1/100
    ∧ docc1 = 0.25 * Usp1 * n ^ 2 / U
    ∧ |MW.Usp_root Usp2 chi0 n U| ≤ 1/100
    ∧ |MW.Uch_root Uch2 chi0 n U docc2| ≤ 1/100
    ∧ docc2 = 0.25 * Usp2 * n ^ 2 / U := by
  simp only [TPSC.solve_Usp_and_Uch, Prod.mk.injEq] at heq1
  obtain ⟨hA, hB, hC⟩ := heq1
  simp only [MW.solve_tpsc, Prod.mk.injEq] at heq2
  obtain ⟨hA2, hB2, hC2, hD2⟩ := heq2
  refine ⟨hr1, hr2, ?_, hr3, hr4, ?_⟩
  · rw [← hC, hA]
    ring
  · rw [← hC2, hA2]
    ring

/-- Witness for C3: concrete near-root-returning solver stand-ins on
the constant susceptibility chiNeg with n = 1, U = 1; the first solver
returns the exact roots Usp = 3, Uch = 7/3 of the first notebook's
residuals, the second returns Usp = 141/50 (residual -119/24100) and
Uch = 482/141 (residual 0) for the Mermin-Wagner residuals. -/
theorem tpsc_solvers_return_residual_roots_witness :
    |TPSC.Usp_root_problem 3 chiNeg 1 1| ≤ 1/100
    ∧ |TPSC.Uch_root_problem (7/3) chiNeg 1 1 (3/4)| ≤ 1/100
    ∧ (3/4 : ℚ) = 0.25 * 3 * 1 ^ 2 / 1
    ∧ |MW.Usp_root (141/50) chiNeg 1 1| ≤ 1/100
    ∧ |MW.Uch_root (482/141) chiNeg 1 1 (141/200)| ≤ 1/100
    ∧ (141/200 : ℚ) = 0.25 * (141/50) * 1 ^ 2 / 1 :=
  tpsc_solvers_return_residual_roots fsolveW brentqW chiNeg 1 1 0.1 0.1 (by norm_num)
    3 (7/3) (3/4)
    (by norm_num [TPSC.solve_Usp_and_Uch, fsolveW, TPSC.Usp_root_problem,
      TPSC.Uch_root_problem, TPSC.trace_chi_kw, TPSC.chi_rpa, Chi.dataSum, chiNeg,
      List.finRange_succ, List.finRange_zero])
    (by norm_num [TPSC.Usp_root_problem, TPSC.trace_chi_kw, TPSC.chi_rpa, Chi.dataSum,
      chiNeg, List.finRange_succ, List.finRange_zero])
    (by norm_num [TPSC.Uch_root_problem, TPSC.trace_chi_kw, TPSC.chi_rpa, Chi.dataSum,
      chiNeg, List.finRange_succ, List.finRange_zero])
    (141/50) (482/141) (141/200) (-2)
    (by norm_num [MW.solve_tpsc, brentqW, MW.Usp_root, MW.Uch_root, Chi.afValue,
      MW.trace_chi, MW.chi_rpa, Chi.dataSum, chiNeg, List.finRange_succ, List.finRange_zero])
    (by norm_num [abs_le, MW.Usp_root, MW.trace_chi, MW.chi_rpa, Chi.dataSum, chiNeg,
      List.finRange_succ, List.finRange_zero])
    (by norm_num [MW.Uch_root, MW.trace_chi, MW.chi_rpa, Chi.dataSum, chiNeg,
      List.finRange_succ, List.finRange_zero])

/-! Claim C6. -/

/-- C6 (confirmed): when chi0 at the antiferromagnetic point has
positive real part and the bracketed root-finder returns inside its
bracket [0, Uc - 1e-6], solve_tpsc computes Uc = 2 / chi0(AF, 0).re,
returns the bracketed Usp, and consequently 0 <= Usp < Uc, the spin
denominator 1 - 0.5 * Usp * chi0(AF, 0) has strictly positive real
part, is nonzero, and the spin susceptibility value at the
antiferromagnetic point is the genuine finite quotient (multiplying it
back by the denominator recovers chi0 there). -/
theorem solve_tpsc_keeps_spin_denominator_positive {nk nw : ℕ}
    (brentq : (ℚ → ℚ) → ℚ → ℚ → ℚ) (chi0 : Chi nk nw) (U n : ℚ)
    (hAF : 0 < chi0.afValue.re)
    (Usp Uch docc Uc : ℚ)
    (heq : MW.solve_tpsc brentq chi0 U n = (Usp, Uch, docc, Uc))
    (hbr : 0 ≤ Usp ∧ Usp ≤ Uc - 1/1000000) :
    Uc = 2 / chi0.afValue.re
    ∧ Usp = brentq (fun x => MW.Usp_root x chi0 n U) 0 (Uc - 1/1000000)
    ∧ 0 ≤ Usp ∧ Usp < Uc
    ∧ 0 < 1 - 0.5 * Usp * chi0.afValue.re
    ∧ ((1 : CQ) - (0.5 * Usp) • chi0.afValue) ≠ 0
    ∧ (MW.chi_rpa chi0 Usp).afValue * ((1 : CQ) - (0.5 * Usp) • chi0.afValue)
        = chi0.afValue := by
  simp only [MW.solve_tpsc, Prod.mk.injEq] at heq
  obtain ⟨hUsp, hUch, hdocc, hUc⟩ := heq
  have hq : 0 < chi0.afValue.re := hAF
  have hUc2 : Uc = 2 / chi0.afValue.re := hUc.symm
  have hb2 : Usp ≤ 2 / chi0.afValue.re - 1/1000000 := by rw [← hUc2]; exact hbr.2
  have hmul : Usp * chi0.afValue.re
      ≤ (2 / chi0.afValue.re - 1/1000000) * chi0.afValue.re :=
    mul_le_mul_of_nonneg_right hb2 hq.le
  have h2q : (2 / chi0.afValue.re) * chi0.afValue.re = 2 :=
    div_mul_cancel₀ 2 (ne_of_gt hq)
  have hUspq : Usp * chi0.afValue.re ≤ 2 - 1/1000000 * chi0.afValue.re := by
    rw [sub_mul, h2q] at hmul
    linarith
  have hden : 0 < 1 - 0.5 * Usp * chi0.afValue.re := by nlinarith
  have hdenCQ : ((1 : CQ) - (0.5 * Usp) • chi0.afValue) ≠ 0 := by
    intro h
    have hre := congrArg CQ.re h
    simp only [CQ.sub_re, CQ.one_re, CQ.smul_re, CQ.zero_re] at hre
    nlinarith
  refine ⟨hUc2, ?_, hbr.1, ?_, hden, hdenCQ, ?_⟩
  · rw [← hUsp, hUc2]
  · have : (0 : ℚ) < 1/1000000 := by norm_num
    linarith [hbr.2]
  · show chi0.afValue * ((1 : CQ) - (0.5 * Usp) • chi0.afValue)⁻¹
        * ((1 : CQ) - (0.5 * Usp) • chi0.afValue) = chi0.afValue
    rw [CQ.mul_assoc, CQ.mul_comm (((1 : CQ) - (0.5 * Usp) • chi0.afValue)⁻¹),
      CQ.mul_inv_cancel _ hdenCQ, CQ.mul_one]

/-- Witness for C6: the constant susceptibility chiPos with value 1 at
the antiferromagnetic point (so Uc = 2), with a bracketed root-finder
stand-in that returns the lower bracket end 0. -/
theorem solve_tpsc_keeps_spin_denominator_positive_witness :
    (2 : ℚ) = 2 / chiPos.afValue.re
    ∧ (0 : ℚ) = brentqLow (fun x => MW.Usp_root x chiPos 1 1) 0 (2 - 1/1000000)
    ∧ (0 : ℚ) ≤ 0 ∧ (0 : ℚ) < 2
    ∧ (0 : ℚ) < 1 - 0.5 * 0 * chiPos.afValue.re
    ∧ ((1 : CQ) - ((0.5 * 0 : ℚ)) • chiPos.afValue) ≠ 0
    ∧ (MW.chi_rpa chiPos 0).afValue * ((1 : CQ) - ((0.5 * 0 : ℚ)) • chiPos.afValue)
        = chiPos.afValue :=
  solve_tpsc_keeps_spin_denominator_positive brentqLow chiPos 1 1
    (by norm_num [chiPos, Chi.afValue])
    0 0 0 2
    (by norm_num [MW.solve_tpsc, brentqLow, Chi.afValue, chiPos])
    (by norm_num)

/-! Claim C2. -/

/-- C2 (corrected): the bubble is not a single opaque library call;
it factors as library Fourier transform, then the repository-defined
particle-hole product fill chi0(r, t) = 2 g(-r, beta - t) g(r, t),
then the library Fourier transform back — and the repo-side fill
genuinely transforms the data, so bubble does not in general coincide
with the bare composition of its two library calls. -/
theorem bubble_factors_through_repo_fill :
    (∀ (κ ρ : Type) (inst : Neg ρ) (F : GKW κ → GRT ρ) (G : GRT ρ → GKW κ)
      (beta : ℚ) (g0 : GKW κ),
      @bubble κ ρ inst F G beta g0 = G (particleHoleFill beta (F g0)))
    ∧ (∃ (F : GKW ℤ → GRT ℤ) (G : GRT ℤ → GKW ℤ) (beta : ℚ) (g0 : GKW ℤ)
        (r : ℤ) (t : ℚ),
        bubble F G beta g0 r t ≠ G (F g0) r t) := by
  constructor
  · intro κ ρ inst F G beta g0
    rfl
  · refine ⟨fun g => g, fun g => g, 1, fun _ _ => 1, 0, 0, ?_⟩
    intro h
    have hre := congrArg CQ.re h
    simp only [bubble, particleHoleFill, CQ.smul_re, CQ.mul_re, CQ.mul_im,
      CQ.one_re, CQ.one_im] at hre
    norm_num at hre

/-- C2 counterexample: if no step of the bubble algorithm were carried
out by repository code, bubble would reduce to the bare composition of
its two opaque Fourier-transform calls; at the identity transforms on
the integer lattice with g0 constant 1 and beta = 1, bubble produces 2
at (r, t) = (0, 0) while the bare composition produces 1. -/
theorem bubble_pure_library_refuted :
    ¬ (∀ (κ ρ : Type) (inst : Neg ρ) (F : GKW κ → GRT ρ) (G : GRT ρ → GKW κ)
        (beta : ℚ) (g0 : GKW κ),
        @bubble κ ρ inst F G beta g0 = G (F g0)) := by
  intro h
  have h1 := congrFun (congrFun
    (h ℤ ℤ inferInstance (fun g => g) (fun g => g) 1 (fun _ _ => 1)) 0) 0
  have hre := congrArg CQ.re h1
  simp only [bubble, particleHoleFill, CQ.smul_re, CQ.mul_re, CQ.mul_im,
    CQ.one_re, CQ.one_im] at hre
  norm_num at hre

/-! Claim C1. -/

/-- C1 counterexample: it is false that every computation of the
notebooks' own code is parameter setting, library calls, or
post-processing/plotting — the Valence-Bond DMFT notebook implements
the DCA Hilbert-transform quadrature itself, and the Mermin-Wagner
notebook implements the particle-hole convolution fill of the bubble
itself. -/
theorem notebooks_only_delegate_refuted :
    notebooksOnlyDelegate = false
    ∧ (⟨"DCA Hilbert transform quadrature over dos bins",
        OpKind.quadratureSum, Origin.repo⟩ : NbStep) ∈ vbDmftSteps
    ∧ (⟨"bubble fill chi0 r t as 2 g minus r beta minus t times g r t",
        OpKind.convolutionFill, Origin.repo⟩ : NbStep) ∈ merminWagnerSteps := by
  refine ⟨by decide, by decide, by decide⟩

/-- C1 (corrected): every computation step of the notebooks' own code
is parameter setting, a library entry-point call, or
post-processing/plotting, except exactly three numerical-algorithm
steps the repository implements itself: the bubble particle-hole
convolution fill, the DCA Hilbert-transform quadrature over the
density-of-states bins, and the Weiss-field self-consistency update. -/
theorem notebooks_delegate_except_inline_kernels :
    (allNotebookSteps.all fun s => s.origin == Origin.library || isDelegationKind s.kind
      || s.kind == OpKind.quadratureSum || s.kind == OpKind.convolutionFill
      || s.kind == OpKind.selfConsistencyUpdate) = true
    ∧ (allNotebookSteps.filter fun s =>
        !(s.origin == Origin.library || isDelegationKind s.kind)) =
      [⟨"bubble fill chi0 r t as 2 g minus r beta minus t times g r t",
        OpKind.convolutionFill, Origin.repo⟩,
       ⟨"DCA Hilbert transform quadrature over dos bins",
        OpKind.quadratureSum, Origin.repo⟩,
       ⟨"Weiss field update inverse of inverse G plus Sigma",
        OpKind.selfConsistencyUpdate, Origin.repo⟩] := by
  refine ⟨by decide, by decide⟩

/-! Claim C5. -/

/-- C5 (confirmed): every Fourier-transform step and every Monte Carlo
sampling step of the notebooks has origin in the external library
(make_gf_from_fourier and the CT-HYB Solver.solve); such steps do
occur, and none is implemented by repository code. -/
theorem fourier_and_monte_carlo_only_in_library :
    (allNotebookSteps.all fun s =>
      !(s.kind == OpKind.fourierTransform || s.kind == OpKind.monteCarlo)
        || s.origin == Origin.library) = true
    ∧ (allNotebookSteps.any fun s => s.kind == OpKind.fourierTransform) = true
    ∧ (allNotebookSteps.any fun s => s.kind == OpKind.monteCarlo) = true := by
  refine ⟨by decide, by decide, by decide⟩

/-! Claim C7. -/

/-- C7 counterexample: the key layout of results.h5 is not determined
solely by the library — the keys written depend on the repository
iteration counter through the repo-defined format strings G_iw-%i,
Sigma_iw-%i, G0_iw-%i. -/
theorem storage_keys_library_only_refuted :
    resultsKeysAt 0 ≠ resultsKeysAt 1
    ∧ "G_iw-7" ∈ resultsArchiveKeys := by
  refine ⟨by decide, by decide⟩

/-- C7 (corrected): the notebooks do define the top-level key naming:
the DMFT loop writes the per-iteration keys G_iw-i, Sigma_iw-i,
G0_iw-i for i = 0..9 (30 pairwise distinct keys), the TPSC notebook
reads key chi0_kw, and the demo writes key g_iw; only the contents
below each key are the library's serialization. -/
theorem results_archive_keys_per_iteration :
    resultsKeysAt 3 = ["G_iw-3", "Sigma_iw-3", "G0_iw-3"]
    ∧ resultsArchiveKeys.length = 30
    ∧ resultsArchiveKeys.Nodup
    ∧ tpscArchiveReadKey = "chi0_kw"
    ∧ gfDemoWriteKey = "g_iw" := by
  refine ⟨by decide, by decide, by decide, rfl, rfl⟩

/-! Claim C9. -/

/-- C9 counterexample: the notebooks do coordinate processes — during a
DMFT iteration the keys a process writes depend on whether it is the
MPI master node, so which process performs the externally visible
archive writes is fixed by a repository-side rule. -/
theorem no_concurrency_rule_refuted :
    iterationWriteKeys true 0 ≠ iterationWriteKeys false 0 := by decide

/-- C9 (corrected): the Valence-Bond DMFT notebook defines exactly one
concurrency rule, the mpi.is_master_node() guard: in every iteration a
non-master process writes nothing to results.h5, while the master node
writes the (nonempty) per-iteration keys. -/
theorem master_node_write_rule :
    ∀ it : ℕ, iterationWriteKeys false it = []
    ∧ iterationWriteKeys true it = resultsKeysAt it
    ∧ resultsKeysAt it ≠ [] := by
  intro it
  refine ⟨rfl, rfl, ?_⟩
  simp [resultsKeysAt]

/-! Claim C10. -/

/-- C10 (confirmed): each of the four notebooks makes at least one call
into the external many-body-physics library and at least one call into
the general scientific stack. -/
theorem every_notebook_uses_both_stacks :
    notebookCallTables.length = 4
    ∧ (notebookCallTables.all fun nb =>
        (nb.2.any fun c => c.side == StackSide.manyBody)
        && (nb.2.any fun c => c.side == StackSide.generalSci)) = true := by
  refine ⟨by decide, by decide⟩

/-! Claim C8. -/

set_option maxHeartbeats 2000000 in
/-- C8 (confirmed): in the Fock representation of the four even/odd
modes (0 = even-up, 1 = odd-up, 2 = even-down, 3 = odd-down), the
even/odd operators satisfy the canonical anticommutation relations;
the inverse combinations (cn[1-s] plus/minus cn[2-s]) / sqrt 2 recover
the even/odd operators; the site operators built by the notebook
satisfy the canonical anticommutation relations; and the local
Hamiltonian h_loc is Hermitian. -/
theorem even_odd_basis_change_canonical :
    (∀ m mm : Fin 4,
      SOp.anticommutator (cOp m.val) (SOp.dagger (cOp mm.val))
        = (if m = mm then SOp.idOp else SOp.zeroOp)
      ∧ SOp.anticommutator (cOp m.val) (cOp mm.val) = SOp.zeroOp)
    ∧ (∀ sp : Spin,
      SOp.smul Ksq.invSqrt2 (SOp.add (cn Site.one sp) (cn Site.two sp)) = cOp (evenMode sp)
      ∧ SOp.smul Ksq.invSqrt2 (SOp.sub (cn Site.one sp) (cn Site.two sp)) = cOp (oddMode sp))
    ∧ (∀ s ss : Site, ∀ sp spsp : Spin,
      SOp.anticommutator (cn s sp) (SOp.dagger (cn ss spsp))
        = (if s = ss ∧ sp = spsp then SOp.idOp else SOp.zeroOp)
      ∧ SOp.anticommutator (cn s sp) (cn ss spsp) = SOp.zeroOp)
    ∧ SOp.dagger h_loc = h_loc := by
  refine ⟨by decide, by decide, by decide, by decide⟩
